import Mathlib

/-
Verification of the multi-user OAuth credential broker (x-mcp).

Shallow embedding conventions:
  * JavaScript strings are lists of characters (JStr).  The helper function
    jsSplit mirrors JavaScript String.split on a single-character separator.
  * Timestamps (Date.now(), expires_at, ...) are integers counting
    milliseconds, as in the source.
  * Randomness (fresh IVs, fresh salts, uuids, secure tokens) is passed in
    explicitly as parameters.
  * The AES-256-CBC cipher primitive from node crypto is not repository code;
    encrypt and decrypt take the cipher pipeline (utf8 to hex including the
    block cipher) as an explicit function parameter, with its round-trip
    contract stated as a hypothesis where needed.  Likewise PBKDF2 is passed
    as a function parameter to the password-hashing model.
  * The SQLite tables are modelled as functions from primary key to an
    optional row; the per-user user_tokens table is a function from the
    numeric user id to an optional row.
  * External HTTP interactions of the token refresh are modelled by a
    RefreshResponse value describing the token-endpoint outcome.
-/

deriving instance DecidableEq for Except

namespace XMcp

/-- JavaScript strings as lists of characters. -/
abbrev JStr := List Char

/-- Conversion from Lean string literals to the JStr embedding. -/
def str (s : String) : JStr := s.toList

/-- Worker for jsSplit: accumulates the current segment in reverse. -/
def jsSplitAux (sep : Char) : JStr → JStr → List JStr
  | [], acc => [acc.reverse]
  | c :: rest, acc =>
      if c = sep then acc.reverse :: jsSplitAux sep rest []
      else jsSplitAux sep rest (c :: acc)

/-- JavaScript String.split on a one-character separator. -/
def jsSplit (sep : Char) (s : JStr) : List JStr := jsSplitAux sep s []

/-- Join a list of strings with a separator, as JavaScript Array.join. -/
def joinSep (sep : JStr) : List JStr → JStr
  | [] => []
  | [x] => x
  | x :: y :: xs => x ++ sep ++ joinSep sep (y :: xs)

/-- The hex digit table used by Buffer.toString with base 16 (lowercase). -/
def hexDigit (n : Nat) : Char :=
  if n = 0 then '0' else if n = 1 then '1' else if n = 2 then '2'
  else if n = 3 then '3' else if n = 4 then '4' else if n = 5 then '5'
  else if n = 6 then '6' else if n = 7 then '7' else if n = 8 then '8'
  else if n = 9 then '9' else if n = 10 then 'a' else if n = 11 then 'b'
  else if n = 12 then 'c' else if n = 13 then 'd' else if n = 14 then 'e'
  else if n = 15 then 'f' else '0'

/-- Buffer.toString with base 16: two lowercase hex digits per byte. -/
def bytesToHex : List Nat → JStr
  | [] => []
  | b :: rest => hexDigit (b / 16) :: hexDigit (b % 16) :: bytesToHex rest

/-- A string that does not contain the given character. -/
def noChar (sep : Char) (s : JStr) : Prop := ∀ c ∈ s, c ≠ sep

instance (sep : Char) (s : JStr) : Decidable (noChar sep s) := by
  unfold noChar; infer_instance

/-- EncryptionManager.encrypt: draw a fresh 16-byte IV, run the cipher
pipeline (modelled by the parameter cipher, standing for the
utf8-to-hex AES-256-CBC pipeline of node crypto createCipher, which derives
its key and real IV from the process key and ignores the drawn IV), and
prepend the hex of the drawn IV followed by a colon. -/
def encrypt (cipher : JStr → JStr) (iv : List Nat) (data : JStr) : JStr :=
  bytesToHex iv ++ ':' :: cipher data

/-- EncryptionManager.decrypt: split on the colon, take the first segment as
the embedded IV and the second as the ciphertext, fail if either is empty,
and run the decipher pipeline (parameter decipher; none models a throw of
the underlying decipher). -/
def decrypt (decipher : JStr → Option JStr) (encryptedData : JStr) : Option JStr :=
  match jsSplit ':' encryptedData with
  | ivHex :: encrypted :: _ =>
      if ivHex = [] ∨ encrypted = [] then none else decipher encrypted
  | _ => none

/-- EncryptionManager.hashPassword: PBKDF2 (passed in as kdf) of the password
with the supplied salt, or with the freshly drawn random salt when none is
supplied; returns the pair of hash and the salt that was used. -/
def hashPassword (kdf : JStr → JStr → JStr) (password : JStr)
    (salt : Option JStr) (freshSalt : JStr) : JStr × JStr :=
  let s := salt.getD freshSalt
  (kdf password s, s)

/-- EncryptionManager.verifyPassword: recompute with the stored salt and
compare. -/
def verifyPassword (kdf : JStr → JStr → JStr) (password hash salt : JStr) : Bool :=
  (hashPassword kdf password (some salt) []).1 == hash

/-- SessionManager.hashSessionSecret: hash with a fresh salt and keep ONLY the
hash component; the salt component of the pair is discarded. -/
def hashSessionSecret (kdf : JStr → JStr → JStr) (freshSalt : JStr)
    (secret : JStr) : JStr :=
  (hashPassword kdf secret none freshSalt).1

/-- SessionManager.verifySessionSecret: split the stored value on a colon;
with no salt part fall back to the legacy comparison, which recomputes the
hash with a FRESH random salt (freshSalt); otherwise verify against the
stored salt. -/
def verifySessionSecret (kdf : JStr → JStr → JStr) (freshSalt : JStr)
    (secret hash : JStr) : Bool :=
  let parts := jsSplit ':' hash
  let hashPart := parts.headD []
  match parts.get? 1 with
  | none => (hashPassword kdf secret none freshSalt).1 == hash
  | some saltPart =>
      if saltPart = [] then (hashPassword kdf secret none freshSalt).1 == hash
      else verifyPassword kdf secret hashPart saltPart

/-! ## Data model rows -/

/-- Row of the users table. -/
structure User where
  id : Nat
  created_at : Int
  display_name : JStr
  x_user_id : JStr
  x_username : JStr
deriving DecidableEq

/-- Row of the sessions table. -/
structure SessionRow where
  id : JStr
  user_id : Nat
  created_at : Int
  expires_at : Int
  session_secret_hash : JStr
deriving DecidableEq

/-- Row of the user_tokens table. -/
structure TokenRow where
  provider : JStr
  x_user_id : JStr
  granted_scopes : JStr
  access_token : JStr
  refresh_token : JStr
  expires_at : Int
  created_at : Int
  updated_at : Int
deriving DecidableEq

/-- Row of the pairing_sessions table. -/
structure PairingRow where
  pairing_code : JStr
  created_at : Int
  expires_at : Int
  code_verifier : JStr
  state : JStr
  user_id : Option Nat
  completed : Bool
deriving DecidableEq

/-- Decrypted token data as handled by the token manager. -/
structure TokenData where
  access_token : JStr
  refresh_token : JStr
  expires_at : Int
  scope : JStr
deriving DecidableEq

/-- The sessions table keyed by session id. -/
abbrev SessStore := JStr → Option SessionRow

/-- The user_tokens table keyed by user id (at most one row per user). -/
abbrev TokStore := Nat → Option TokenRow

/-- The pairing_sessions table keyed by pairing code. -/
abbrev PairStore := JStr → Option PairingRow

/-- The users table keyed by numeric id, as used by getUserById. -/
abbrev UserStore := Nat → Option User

/-! ## Persistent store operations (XDatabase) -/

/-- XDatabase.createSession at the row level: insert with default expiry of
30 days when none supplied. -/
def dbCreateSession (now : Int) (userId : Nat) (sessionId : JStr)
    (sessionSecretHash : JStr) (expiresAt : Option Int)
    (store : SessStore) : SessStore :=
  let row : SessionRow :=
    { id := sessionId, user_id := userId, created_at := now
      expires_at := expiresAt.getD (now + 30 * 24 * 60 * 60 * 1000)
      session_secret_hash := sessionSecretHash }
  fun sid => if sid = sessionId then some row else store sid

/-- XDatabase.getSession: only returns rows with expires_at strictly after
the current time. -/
def getSession (now : Int) (store : SessStore) (sessionId : JStr) : Option SessionRow :=
  match store sessionId with
  | some s => if now < s.expires_at then some s else none
  | none => none

/-- XDatabase.cleanupExpiredSessions: delete every row with
expires_at less than or equal to the current time. -/
def cleanupExpiredSessions (now : Int) (store : SessStore) : SessStore :=
  fun sid =>
    match store sid with
    | some s => if s.expires_at ≤ now then none else some s
    | none => none

/-- Fallback for created_at in the upsert: keep the original creation time
when a row already exists, as the COALESCE subselect does. -/
def createdAtFallback (old : Option TokenRow) (now : Int) : Int :=
  match old with
  | some r => r.created_at
  | none => now

/-- Field payload handed to XDatabase.saveUserTokens. -/
structure TokenUpsert where
  x_user_id : JStr
  granted_scopes : JStr
  access_token : JStr
  refresh_token : JStr
  expires_at : Int
deriving DecidableEq

/-- XDatabase.saveUserTokens: INSERT OR REPLACE preserving the original
created_at and stamping updated_at with the current time. -/
def saveUserTokens (now : Int) (userId : Nat) (d : TokenUpsert)
    (store : TokStore) : TokStore :=
  fun u =>
    if u = userId then
      some { provider := str "x", x_user_id := d.x_user_id
             granted_scopes := d.granted_scopes
             access_token := d.access_token, refresh_token := d.refresh_token
             expires_at := d.expires_at
             created_at := createdAtFallback (store userId) now
             updated_at := now }
    else store u

/-- XDatabase.deleteUserTokens. -/
def deleteUserTokens (userId : Nat) (store : TokStore) : TokStore :=
  fun u => if u = userId then none else store u

/-- JavaScript coercion row.user_id or undefined: a falsy stored id (0)
becomes an absent one. -/
def normUserId : Option Nat → Option Nat
  | some 0 => none
  | x => x

/-- XDatabase.getPairingSession: only returns rows with expires_at strictly
after the current time, coercing a falsy stored user id to an absent one. -/
def getPairingSession (now : Int) (store : PairStore) (pairingCode : JStr) :
    Option PairingRow :=
  match store pairingCode with
  | some row =>
      if now < row.expires_at then
        some { row with user_id := normUserId row.user_id }
      else none
  | none => none

/-- XDatabase.completePairingSession: UPDATE pairing_sessions SET user_id,
completed = 1 WHERE pairing_code matches AND expires_at is strictly in the
future.  Note that the update does NOT check the completed flag. -/
def completePairingSession (now : Int) (store : PairStore) (pairingCode : JStr)
    (userId : Nat) : PairStore :=
  fun c =>
    if c = pairingCode then
      match store pairingCode with
      | some row =>
          if now < row.expires_at then
            some { row with user_id := some userId, completed := true }
          else some row
      | none => none
    else store c

/-- XDatabase.cleanupExpiredPairingSessions: delete every row with
expires_at less than or equal to the current time. -/
def cleanupExpiredPairingSessions (now : Int) (store : PairStore) : PairStore :=
  fun c =>
    match store c with
    | some row => if row.expires_at ≤ now then none else some row
    | none => none

/-! ## Session manager -/

/-- SessionManager.createSession: draw a session id and secret (parameters
sessionId and secret), persist only the salted hash of the secret computed
with the fresh salt freshSalt, defaulting expiry to 30 days. -/
def smCreateSession (kdf : JStr → JStr → JStr) (freshSalt : JStr) (now : Int)
    (userId : Nat) (sessionId secret : JStr) (expiresAt : Option Int)
    (store : SessStore) : SessStore :=
  dbCreateSession now userId sessionId (hashSessionSecret kdf freshSalt secret)
    expiresAt store

/-- SessionManager.validateSession: read the (non-expired) session; without a
supplied secret accept on id alone, otherwise require the secret to verify
against the stored hash.  freshSalt is the random salt the legacy comparison
path would draw. -/
def validateSession (kdf : JStr → JStr → JStr) (freshSalt : JStr) (now : Int)
    (store : SessStore) (sessionId : JStr) (sessionSecret : Option JStr) :
    Option SessionRow :=
  match getSession now store sessionId with
  | none => none
  | some session =>
      match sessionSecret with
      | none => some session
      | some sec =>
          if verifySessionSecret kdf freshSalt sec session.session_secret_hash
          then some session else none

/-! ## Token manager -/

/-- The error codes carried by AuthError values. -/
inductive AuthCode where
  | auth_reauth_required
  | auth_scope_insufficient
  | auth_invalid_session
deriving DecidableEq

/-- AuthError: an error value with a code, a message and optional
login-URL and missing-scope payloads. -/
structure AuthErr where
  code : AuthCode
  message : JStr
  login_url : Option JStr
  missing_scopes : Option (List JStr)
deriving DecidableEq

/-- createAuthError as used by the token manager. -/
def createAuthError (code : AuthCode) (message : JStr) (loginUrl : Option JStr)
    (missingScopes : Option (List JStr)) : AuthErr :=
  { code := code, message := message, login_url := loginUrl
    missing_scopes := missingScopes }

/-- X configuration relevant to the token manager. -/
structure XConfig where
  clientId : JStr
  clientSecret : JStr
  redirectUri : JStr
  hostedMode : Bool
  baseUrl : Option JStr
deriving DecidableEq

/-- TokenManager.getLoginUrl. -/
def getLoginUrl (cfg : XConfig) : JStr :=
  match cfg.hostedMode, cfg.baseUrl with
  | true, some b => b ++ str "/auth/start"
  | _, _ => str "Please run: npm run auth"

/-- encodeURIComponent restricted to the scope-name alphabet: only the comma
needs escaping there. -/
def uriEncode : JStr → JStr
  | [] => []
  | c :: rest => (if c = ',' then str "%2C" else [c]) ++ uriEncode rest

/-- TokenManager.getReAuthUrl. -/
def getReAuthUrl (cfg : XConfig) (missingScopes : List JStr) : JStr :=
  match cfg.hostedMode, cfg.baseUrl with
  | true, some b =>
      b ++ str "/auth/start?additional_scopes="
        ++ uriEncode (joinSep (str ",") missingScopes)
  | _, _ =>
      str "Please re-authenticate with additional scopes: "
        ++ joinSep (str ", ") missingScopes

/-- TokenManager.getToolScopes: the static per-tool scope table. -/
def getToolScopes (toolName : JStr) : List JStr :=
  if toolName = str "bookmarks.list" then [str "bookmark.read", str "bookmarks.read"]
  else if toolName = str "bookmarks.add" ∨ toolName = str "bookmarks.remove" then
    [str "bookmark.write"]
  else if toolName = str "tweet.create" then [str "tweet.write"]
  else [str "users.read"]

/-- TokenManager.checkScopes: the required scopes not present in the
space-delimited granted string, with the singular and plural spellings
accepted for the bookmark read scope only. -/
def checkScopes (grantedScopes : JStr) (requiredScopes : List JStr) : List JStr :=
  let granted := jsSplit ' ' grantedScopes
  requiredScopes.filter (fun required =>
    if required = str "bookmark.read" then
      !(granted.contains (str "bookmark.read"))
        && !(granted.contains (str "bookmarks.read"))
    else !(granted.contains required))

/-- Outcome of the POST to the token endpoint during a refresh: a non-success
HTTP response, a network-level failure, or a success payload (a missing or
empty refresh_token or scope field of the JSON body is modelled as none). -/
inductive RefreshResponse where
  | httpError
  | networkError
  | ok (access_token : JStr) (refresh_token : Option JStr) (expires_in : Int)
      (scope : Option JStr)
deriving DecidableEq

/-- TokenManager.refreshTokens: on a non-success response delete the stored
row and fail with reauth; on success build the new token data (falling back
to the previous refresh token and scope), encrypt both secrets with
cipher and upsert; on a network error fail with reauth leaving the
store untouched. -/
def refreshTokens (cipher : JStr → JStr) (cfg : XConfig) (now : Int)
    (user : User) (currentTokens : TokenData) (resp : RefreshResponse)
    (store : TokStore) : Except AuthErr TokenData × TokStore :=
  match resp with
  | .httpError =>
      (Except.error (createAuthError .auth_reauth_required
          (str "Token refresh failed. Please re-authenticate.")
          (some (getLoginUrl cfg)) none),
       deleteUserTokens user.id store)
  | .networkError =>
      (Except.error (createAuthError .auth_reauth_required
          (str "Network error during token refresh. Please try again or re-authenticate.")
          (some (getLoginUrl cfg)) none),
       store)
  | .ok a rt ei sc =>
      let newTokens : TokenData :=
        { access_token := a
          refresh_token := rt.getD currentTokens.refresh_token
          expires_at := now + ei * 1000
          scope := sc.getD currentTokens.scope }
      (Except.ok newTokens,
       saveUserTokens now user.id
         { x_user_id := user.x_user_id
           granted_scopes := newTokens.scope
           access_token := cipher newTokens.access_token
           refresh_token := cipher newTokens.refresh_token
           expires_at := newTokens.expires_at }
         store)

/-- TokenManager.getValidAccessToken: load the stored row (reauth if absent),
decrypt both secrets with decipher (reauth if either fails), check the
required scopes if any were given (scope-insufficient on a miss), refresh
when within 60 seconds of expiry, and return the plaintext access token. -/
def getValidAccessToken (decipher : JStr → Option JStr) (cipher : JStr → JStr)
    (cfg : XConfig) (now : Int) (user : User)
    (requiredScopes : Option (List JStr)) (resp : RefreshResponse)
    (store : TokStore) : Except AuthErr JStr × TokStore :=
  match store user.id with
  | none =>
      (Except.error (createAuthError .auth_reauth_required
          (str "No tokens found for user " ++ user.x_username
            ++ str ". Please authenticate.")
          (some (getLoginUrl cfg)) none),
       store)
  | some tokens =>
      match decipher tokens.access_token, decipher tokens.refresh_token with
      | some a, some r =>
          let decryptedTokens : TokenData :=
            { access_token := a, refresh_token := r
              expires_at := tokens.expires_at, scope := tokens.granted_scopes }
          let scopeFailure : Option AuthErr :=
            match requiredScopes with
            | some req =>
                let missingScopes := checkScopes decryptedTokens.scope req
                if missingScopes.isEmpty then none
                else some (createAuthError .auth_scope_insufficient
                    (str "Missing required scopes: "
                      ++ joinSep (str ", ") missingScopes)
                    (some (getReAuthUrl cfg missingScopes))
                    (some missingScopes))
            | none => none
          match scopeFailure with
          | some e => (Except.error e, store)
          | none =>
              if now ≥ decryptedTokens.expires_at - 60000 then
                match refreshTokens cipher cfg now user decryptedTokens resp store with
                | (Except.ok newTokens, store2) =>
                    (Except.ok newTokens.access_token, store2)
                | (Except.error e, store2) => (Except.error e, store2)
              else (Except.ok decryptedTokens.access_token, store)
      | _, _ =>
          (Except.error (createAuthError .auth_reauth_required
              (str "Token decryption failed. Please re-authenticate.")
              (some (getLoginUrl cfg)) none),
           store)

/-- TokenManager.validateToolAccess: compose the per-tool scope table with
getValidAccessToken. -/
def validateToolAccess (decipher : JStr → Option JStr) (cipher : JStr → JStr)
    (cfg : XConfig) (now : Int) (user : User) (toolName : JStr)
    (resp : RefreshResponse) (store : TokStore) :
    Except AuthErr JStr × TokStore :=
  getValidAccessToken decipher cipher cfg now user
    (some (getToolScopes toolName)) resp store

/-! ## OAuth manager: pairing status -/

/-- The view of a user returned by checkPairingStatus. -/
structure UserView where
  id : Nat
  display_name : JStr
  x_username : JStr
deriving DecidableEq

/-- The response of checkPairingStatus. -/
structure AuthStatusResponse where
  verified : Bool
  user : Option UserView
deriving DecidableEq

/-- OAuthManager.checkPairingStatus: resolve the (non-expired) pairing
session by code and report verified only when it is completed, carries a
bound user id and that user still resolves. -/
def checkPairingStatus (now : Int) (store : PairStore) (users : UserStore)
    (pairingCode : JStr) : AuthStatusResponse :=
  match getPairingSession now store pairingCode with
  | none => { verified := false, user := none }
  | some session =>
      if session.completed = false then { verified := false, user := none }
      else
        match session.user_id with
        | none => { verified := false, user := none }
        | some uid =>
            match users uid with
            | none => { verified := false, user := none }
            | some u =>
                { verified := true
                  user := some { id := u.id, display_name := u.display_name
                                 x_username := u.x_username } }

/-! ## Claim-side definition for the scope-alias refinement comparison -/

/-- Normalisation of the plural provider spellings of the bookmark scopes to
the singular ones. -/
def scopeAliasNorm (s : JStr) : JStr :=
  if s = str "bookmarks.read" then str "bookmark.read"
  else if s = str "bookmarks.write" then str "bookmark.write"
  else s

/-- Stated from the claim wording of C8, for comparison with checkScopes:
the required scopes absent from the granted-scope string when the singular
and plural bookmark scope-name aliases are treated as equivalent. -/
def specAliasMissingScopes (grantedScopes : JStr) (requiredScopes : List JStr) :
    List JStr :=
  let granted := (jsSplit ' ' grantedScopes).map scopeAliasNorm
  requiredScopes.filter (fun required =>
    !(granted.contains (scopeAliasNorm required)))

/-! ## Concrete fixtures used to evaluate the model -/

/-- A loopback-mode configuration. -/
def cfg0 : XConfig :=
  { clientId := str "cid", clientSecret := str "cs"
    redirectUri := str "http://127.0.0.1:3000/auth/x/cb"
    hostedMode := false, baseUrl := none }

/-- A user row. -/
def user0 : User :=
  { id := 1, created_at := 0, display_name := str "Alice"
    x_user_id := str "u1", x_username := str "alice" }

/-- A concrete salt-sensitive key-derivation function standing in for PBKDF2
in evaluations; like PBKDF2 it yields different hashes for different salts. -/
def demoKdf : JStr → JStr → JStr := fun password salt => password ++ salt

/-- A session store holding one session created at time 0 for user 1 with
secret sek, whose hash was salted with aa. -/
def demoSessStore : SessStore :=
  smCreateSession demoKdf (str "aa") 0 1 (str "sid1") (str "sek") none
    (fun _ => none)

/-- A pairing session that was already completed and bound to user 1,
expiring at time 100. -/
def rowC1 : PairingRow :=
  { pairing_code := str "CODE1234", created_at := 0, expires_at := 100
    code_verifier := str "ver", state := str "st8"
    user_id := some 1, completed := true }

/-- A pairing store holding only rowC1. -/
def pairStore1 : PairStore :=
  fun c => if c = str "CODE1234" then some rowC1 else none

/-- A token row already at its expiry (needs a refresh at time 0). -/
def rowExpired : TokenRow :=
  { provider := str "x", x_user_id := str "u1"
    granted_scopes := str "users.read"
    access_token := str "encA", refresh_token := str "encR"
    expires_at := 0, created_at := 0, updated_at := 0 }

/-- A token store holding rowExpired for user 1. -/
def storeExpired : TokStore := fun u => if u = 1 then some rowExpired else none

/-- A token row with plenty of time before expiry at time 0. -/
def rowFresh : TokenRow :=
  { provider := str "x", x_user_id := str "u1"
    granted_scopes := str "users.read"
    access_token := str "A", refresh_token := str "R"
    expires_at := 1000000000, created_at := 0, updated_at := 0 }

/-- A token store holding rowFresh for user 1. -/
def storeFresh : TokStore := fun u => if u = 1 then some rowFresh else none

/-- A token row whose grant carries the PLURAL bookmark write scope. -/
def rowPlural : TokenRow :=
  { provider := str "x", x_user_id := str "u1"
    granted_scopes := str "bookmarks.write users.read tweet.read"
    access_token := str "A", refresh_token := str "R"
    expires_at := 1000000000, created_at := 0, updated_at := 0 }

/-- A token store holding rowPlural for user 1. -/
def storePlural : TokStore := fun u => if u = 1 then some rowPlural else none

/-- Decrypted token data used to evaluate refreshTokens. -/
def demoCur : TokenData :=
  { access_token := str "A", refresh_token := str "R"
    expires_at := 0, scope := str "users.read" }

end XMcp

namespace XMcp

/-! ## Lemmas about jsSplit and the hex encoding -/

theorem jsSplitAux_ne_nil (sep : Char) (s acc : JStr) : jsSplitAux sep s acc ≠ [] := by
  induction s generalizing acc with
  | nil => simp [jsSplitAux]
  | cons c rest ih =>
      simp only [jsSplitAux]
      split
      · simp
      · exact ih _

theorem jsSplit_ne_nil (sep : Char) (s : JStr) : jsSplit sep s ≠ [] :=
  jsSplitAux_ne_nil sep s []

theorem jsSplitAux_no_sep (sep : Char) (s r acc : JStr) (h : ∀ c ∈ s, c ≠ sep) :
    jsSplitAux sep (s ++ r) acc = jsSplitAux sep r (s.reverse ++ acc) := by
  induction s generalizing acc with
  | nil => simp
  | cons c rest ih =>
      have hc : c ≠ sep := h c (List.mem_cons_self c rest)
      simp only [List.cons_append, jsSplitAux, if_neg hc]
      show jsSplitAux sep (rest ++ r) (c :: acc)
        = jsSplitAux sep r ((c :: rest).reverse ++ acc)
      rw [ih _ (fun x hx => h x (List.mem_cons_of_mem _ hx))]
      simp

theorem jsSplit_no_sep (sep : Char) (s : JStr) (h : ∀ c ∈ s, c ≠ sep) :
    jsSplit sep s = [s] := by
  have h2 := jsSplitAux_no_sep sep s [] [] h
  simp only [List.append_nil, jsSplitAux, List.reverse_reverse] at h2
  simpa [jsSplit] using h2

theorem jsSplit_append_sep (sep : Char) (s t : JStr) (h : ∀ c ∈ s, c ≠ sep) :
    jsSplit sep (s ++ sep :: t) = s :: jsSplit sep t := by
  have h2 := jsSplitAux_no_sep sep s (sep :: t) [] h
  simp only [jsSplitAux, List.append_nil, List.reverse_reverse, if_pos] at h2
  simpa [jsSplit] using h2

theorem hexDigit_ne_colon (n : Nat) : hexDigit n ≠ ':' := by
  rcases Nat.lt_or_ge n 16 with h | h
  · interval_cases n <;> decide
  · have h0 : hexDigit n = '0' := by
      unfold hexDigit
      repeat rw [if_neg (by omega)]
    rw [h0]; decide

theorem noChar_colon_bytesToHex (l : List Nat) : noChar ':' (bytesToHex l) := by
  induction l with
  | nil => intro c hc; simp [bytesToHex] at hc
  | cons b t ih =>
      intro c hc
      simp only [bytesToHex, List.mem_cons] at hc
      rcases hc with rfl | rfl | hc
      · exact hexDigit_ne_colon _
      · exact hexDigit_ne_colon _
      · exact ih c hc

theorem bytesToHex_ne_nil {l : List Nat} (h : l ≠ []) : bytesToHex l ≠ [] := by
  cases l with
  | nil => exact absurd rfl h
  | cons b t => simp [bytesToHex]

theorem hexDigit_inj : ∀ a < 16, ∀ b < 16, hexDigit a = hexDigit b → a = b := by decide

theorem bytesToHex_inj : ∀ l1 l2 : List Nat, (∀ b ∈ l1, b < 256) →
    (∀ b ∈ l2, b < 256) → bytesToHex l1 = bytesToHex l2 → l1 = l2 := by
  intro l1
  induction l1 with
  | nil =>
      intro l2 _ _ h
      cases l2 with
      | nil => rfl
      | cons b t => simp [bytesToHex] at h
  | cons a t ih =>
      intro l2 h1 h2 h
      cases l2 with
      | nil => simp [bytesToHex] at h
      | cons b t2 =>
          simp only [bytesToHex, List.cons.injEq] at h
          obtain ⟨hhi, hlo, ht⟩ := h
          have ha : a < 256 := h1 a (List.mem_cons_self _ _)
          have hb : b < 256 := h2 b (List.mem_cons_self _ _)
          have e1 : a / 16 = b / 16 :=
            hexDigit_inj _ (by omega) _ (by omega) hhi
          have e2 : a % 16 = b % 16 :=
            hexDigit_inj _ (by omega) _ (by omega) hlo
          have hab : a = b := by omega
          subst hab
          rw [ih t2 (fun x hx => h1 x (List.mem_cons_of_mem _ hx))
            (fun x hx => h2 x (List.mem_cons_of_mem _ hx)) ht]

theorem contains_iff_mem (l : List JStr) (x : JStr) : l.contains x = true ↔ x ∈ l := by
  simp [List.contains, List.elem_iff]

theorem contains_eq_false_iff (l : List JStr) (x : JStr) :
    l.contains x = false ↔ x ∉ l := by
  rw [← Bool.not_eq_true, not_iff_not, contains_iff_mem]

/-! ## Claim theorems -/

/-- C1: the completion update of a pairing session has no guard on the
completed flag, only on expiry.  On the store whose row CODE1234 is already
completed and bound to user 1 and expires at time 100, a second
completePairingSession call at time 50 rebinds the row to user 2 instead of
being a failing no-op; a call at time 200, after expiry, is a no-op. -/
theorem completePairingSession_double_call_rebinds :
    completePairingSession 50 pairStore1 (str "CODE1234") 2 (str "CODE1234")
      = some { pairing_code := str "CODE1234", created_at := 0, expires_at := 100
               code_verifier := str "ver", state := str "st8"
               user_id := some 2, completed := true }
    ∧ pairStore1 (str "CODE1234") = some rowC1
    ∧ rowC1.user_id = some 1 ∧ rowC1.completed = true
    ∧ completePairingSession 200 pairStore1 (str "CODE1234") 2 (str "CODE1234")
      = some rowC1 := by decide

/-- C2: a session created with a secret fails validation with that very
secret: smCreateSession persists only the hash component and discards the
salt, so verifySessionSecret falls into the legacy branch and recomputes the
hash with a fresh random salt.  On the demo store the session row is still
readable (unexpired), the two salts give different demoKdf hashes, and
validation with the correct secret returns nothing. -/
theorem validateSession_correct_secret_fails :
    validateSession demoKdf (str "bb") 1000 demoSessStore (str "sid1")
        (some (str "sek")) = none
    ∧ (getSession 1000 demoSessStore (str "sid1")).isSome = true
    ∧ demoKdf (str "sek") (str "aa") ≠ demoKdf (str "sek") (str "bb") := by decide

/-- C7: the cleanup operations keep exactly the rows whose expiry is strictly
after the current time, hence never delete a non-expired row and delete every
row at or past expiry; and running either cleanup twice at the same instant
leaves the store of the first run unchanged. -/
theorem cleanup_deletes_exactly_expired (now : Int) (sess : SessStore)
    (pair : PairStore) (sid code : JStr) (s0 : SessionRow) (p0 : PairingRow) :
    (cleanupExpiredSessions now sess sid = some s0
      ↔ sess sid = some s0 ∧ now < s0.expires_at)
    ∧ cleanupExpiredSessions now (cleanupExpiredSessions now sess)
        = cleanupExpiredSessions now sess
    ∧ (cleanupExpiredPairingSessions now pair code = some p0
      ↔ pair code = some p0 ∧ now < p0.expires_at)
    ∧ cleanupExpiredPairingSessions now (cleanupExpiredPairingSessions now pair)
        = cleanupExpiredPairingSessions now pair := by
  refine ⟨?_, ?_, ?_, ?_⟩
  · unfold cleanupExpiredSessions
    cases h : sess sid with
    | none => simp
    | some s =>
        by_cases hle : s.expires_at ≤ now
        · simp only [if_pos hle]
          constructor
          · intro hc; exact absurd hc (by simp)
          · rintro ⟨h1, h2⟩
            injection h1 with h1; subst h1; omega
        · simp only [if_neg hle]
          constructor
          · intro hc; injection hc with hc; subst hc
            exact ⟨rfl, by omega⟩
          · rintro ⟨h1, _⟩; injection h1 with h1; rw [h1]
  · funext sid2
    unfold cleanupExpiredSessions
    cases h : sess sid2 with
    | none => simp
    | some s =>
        by_cases hle : s.expires_at ≤ now
        · simp [hle]
        · simp [hle]
  · unfold cleanupExpiredPairingSessions
    cases h : pair code with
    | none => simp
    | some p =>
        by_cases hle : p.expires_at ≤ now
        · simp only [if_pos hle]
          constructor
          · intro hc; exact absurd hc (by simp)
          · rintro ⟨h1, h2⟩
            injection h1 with h1; subst h1; omega
        · simp only [if_neg hle]
          constructor
          · intro hc; injection hc with hc; subst hc
            exact ⟨rfl, by omega⟩
          · rintro ⟨h1, _⟩; injection h1 with h1; rw [h1]
  · funext c2
    unfold cleanupExpiredPairingSessions
    cases h : pair c2 with
    | none => simp
    | some p =>
        by_cases hle : p.expires_at ≤ now
        · simp [hle]
        · simp [hle]

/-- C7 witness: idempotence of the pairing cleanup evaluated on the empty
store, obtained from the cleanup theorem. -/
theorem cleanup_deletes_exactly_expired_witness :
    cleanupExpiredPairingSessions 0 (cleanupExpiredPairingSessions 0 (fun _ => none))
      = cleanupExpiredPairingSessions 0 (fun _ => none) :=
  (cleanup_deletes_exactly_expired 0 (fun _ => none) (fun _ => none) [] []
    { id := [], user_id := 0, created_at := 0, expires_at := 0
      session_secret_hash := [] }
    { pairing_code := [], created_at := 0, expires_at := 0, code_verifier := []
      state := [], user_id := none, completed := false }).2.2.2

/-- C3: when the cipher pipeline round-trips on the plaintext and yields a
non-empty colon-free ciphertext, decrypt inverts encrypt for a non-empty IV;
and two encrypt calls whose freshly drawn IVs (byte lists below 256) differ
produce different ciphertext encodings. -/
theorem decrypt_encrypt_roundtrip_and_iv_freshness
    (cipher : JStr → JStr) (decipher : JStr → Option JStr)
    (iv1 iv2 : List Nat) (x : JStr)
    (hround : decipher (cipher x) = some x)
    (hct_ne : cipher x ≠ []) (hct_nc : noChar ':' (cipher x))
    (hiv1 : iv1 ≠ []) (hb1 : ∀ b ∈ iv1, b < 256) (hb2 : ∀ b ∈ iv2, b < 256)
    (hne : iv1 ≠ iv2) :
    decrypt decipher (encrypt cipher iv1 x) = some x
    ∧ encrypt cipher iv1 x ≠ encrypt cipher iv2 x := by
  constructor
  · unfold encrypt decrypt
    rw [jsSplit_append_sep ':' _ _ (noChar_colon_bytesToHex iv1),
      jsSplit_no_sep ':' _ hct_nc]
    simp [bytesToHex_ne_nil hiv1, hct_ne, hround]
  · intro h
    unfold encrypt at h
    have h2 := congrArg (jsSplit ':') h
    rw [jsSplit_append_sep ':' _ _ (noChar_colon_bytesToHex iv1),
      jsSplit_append_sep ':' _ _ (noChar_colon_bytesToHex iv2)] at h2
    simp only [List.cons.injEq] at h2
    exact hne (bytesToHex_inj iv1 iv2 hb1 hb2 h2.1)

/-- C3 witness: the round-trip and the IV-freshness inequality evaluated with
the identity pipeline, the plaintext hi and the one-byte IVs 0 and 1. -/
theorem decrypt_encrypt_roundtrip_witness :
    decrypt Option.some (encrypt id [0] (str "hi")) = some (str "hi")
    ∧ encrypt id [0] (str "hi") ≠ encrypt id [1] (str "hi") :=
  decrypt_encrypt_roundtrip_and_iv_freshness id Option.some [0] [1] (str "hi")
    rfl (by decide) (by decide) (by decide) (by decide) (by decide) (by decide)

/-- C10 (amended): decrypt ignores the embedded IV segment as long as the
replacement segment is non-empty and colon-free: the result depends only on
the ciphertext segment and the decipher pipeline. -/
theorem decrypt_result_ignores_iv_segment (decipher : JStr → Option JStr)
    (iv1 iv2 rest : JStr) (h1 : iv1 ≠ []) (h2 : iv2 ≠ [])
    (hc1 : noChar ':' iv1) (hc2 : noChar ':' iv2) :
    decrypt decipher (iv1 ++ ':' :: rest) = decrypt decipher (iv2 ++ ':' :: rest) := by
  unfold decrypt
  rw [jsSplit_append_sep ':' _ _ hc1, jsSplit_append_sep ':' _ _ hc2]
  obtain ⟨e, es, hs⟩ := List.exists_cons_of_ne_nil (jsSplit_ne_nil ':' rest)
  rw [hs]
  simp [h1, h2]

/-- C10 witness: two different colon-free IV segments in front of the same
ciphertext segment decrypt identically. -/
theorem decrypt_result_ignores_iv_segment_witness :
    decrypt Option.some (str "aa" ++ ':' :: str "zz")
      = decrypt Option.some (str "bb" ++ ':' :: str "zz") :=
  decrypt_result_ignores_iv_segment Option.some (str "aa") (str "bb") (str "zz")
    (by decide) (by decide) (by decide) (by decide)

/-- C10 counterexample: replacing the IV segment of the accepted encoding
aa:cc with the non-empty string a:a changes the result of decrypt, because
the parser then takes the second a as the ciphertext segment; so the claim
does not hold for arbitrary non-empty replacement strings. -/
theorem decrypt_iv_replacement_counterexample :
    decrypt Option.some (str "aa" ++ ':' :: str "cc")
      ≠ decrypt Option.some (str "a:a" ++ ':' :: str "cc") := by decide

/-- C4 (amended): getValidAccessToken fails with auth_reauth_required
carrying a login URL, returning no token, when the user has no stored token
row or when either stored secret fails to decrypt; and apart from the
refresh step these are the only failure sources: with a row present, both
secrets decrypting, the scope check passing and more than 60 seconds to
expiry, the plaintext access token is returned and the store is untouched. -/
theorem getValidAccessToken_reauth_cases (decipher : JStr → Option JStr)
    (cipher : JStr → JStr) (cfg : XConfig) (now : Int) (user : User)
    (req : Option (List JStr)) (resp : RefreshResponse) (store : TokStore) :
    (store user.id = none →
      (getValidAccessToken decipher cipher cfg now user req resp store).1
        = Except.error (createAuthError .auth_reauth_required
            (str "No tokens found for user " ++ user.x_username
              ++ str ". Please authenticate.")
            (some (getLoginUrl cfg)) none))
    ∧ (∀ row, store user.id = some row →
        decipher row.access_token = none ∨ decipher row.refresh_token = none →
        (getValidAccessToken decipher cipher cfg now user req resp store).1
          = Except.error (createAuthError .auth_reauth_required
              (str "Token decryption failed. Please re-authenticate.")
              (some (getLoginUrl cfg)) none))
    ∧ (∀ row a r, store user.id = some row →
        decipher row.access_token = some a →
        decipher row.refresh_token = some r →
        (∀ req0, req = some req0 → checkScopes row.granted_scopes req0 = []) →
        now < row.expires_at - 60000 →
        getValidAccessToken decipher cipher cfg now user req resp store
          = (Except.ok a, store)) := by
  refine ⟨?_, ?_, ?_⟩
  · intro h
    unfold getValidAccessToken
    rw [h]
  · intro row hrow hd
    unfold getValidAccessToken
    rw [hrow]
    simp only
    rcases hfa : decipher row.access_token with _ | a <;>
      rcases hfr : decipher row.refresh_token with _ | r
    · rfl
    · rfl
    · rfl
    · exfalso
      rcases hd with hd | hd
      · rw [hfa] at hd; exact Option.noConfusion hd
      · rw [hfr] at hd; exact Option.noConfusion hd
  · intro row a r hrow ha hr hscope hexp
    unfold getValidAccessToken
    rw [hrow]
    simp only
    rw [ha, hr]
    simp only
    have hcond : ¬ (now ≥ row.expires_at - 60000) := by omega
    cases req with
    | none =>
        simp only
        rw [if_neg hcond]
    | some req0 =>
        have h0 := hscope req0 rfl
        simp only [h0, List.isEmpty_nil, if_true]
        rw [if_neg hcond]

/-- C4 witness: a user with no stored token row receives the reauth error
with the login hint. -/
theorem getValidAccessToken_reauth_cases_witness :
    (getValidAccessToken Option.some id cfg0 0 user0 none
        RefreshResponse.httpError (fun _ => none)).1
      = Except.error (createAuthError .auth_reauth_required
          (str "No tokens found for user " ++ user0.x_username
            ++ str ". Please authenticate.")
          (some (getLoginUrl cfg0)) none) :=
  (getValidAccessToken_reauth_cases Option.some id cfg0 0 user0 none
    RefreshResponse.httpError (fun _ => none)).1 rfl

/-- C4 counterexample: a user whose stored row exists and whose secrets
decrypt (the decipher is Option.some) still receives auth_reauth_required
when the refresh inside the expiry window meets a non-success response, so
the two cases of the claim are not the only sources of that error. -/
theorem getValidAccessToken_reauth_from_refresh :
    (getValidAccessToken Option.some id cfg0 0 user0 none
        RefreshResponse.httpError storeExpired).1
      = Except.error (createAuthError .auth_reauth_required
          (str "Token refresh failed. Please re-authenticate.")
          (some (str "Please run: npm run auth")) none)
    ∧ storeExpired user0.id = some rowExpired := by decide

/-- C5: with a stored row whose secrets decrypt, getValidAccessToken
refreshes exactly when the current time is at or past expiry minus 60
seconds: with more than 60 seconds remaining it returns the stored access
token and leaves the store untouched; within the window it returns the
token of the refresh response and rewrites the stored row; in particular a
row with expires_at equal to now plus 30 seconds is refreshed. -/
theorem getValidAccessToken_refresh_window (decipher : JStr → Option JStr)
    (cipher : JStr → JStr) (cfg : XConfig) (now : Int) (user : User)
    (row : TokenRow) (store : TokStore) (a r : JStr)
    (hrow : store user.id = some row)
    (ha : decipher row.access_token = some a)
    (hr : decipher row.refresh_token = some r) :
    (∀ resp, row.expires_at - now > 60000 →
      getValidAccessToken decipher cipher cfg now user none resp store
        = (Except.ok a, store))
    ∧ (∀ a2 rt2 ei s2, now ≥ row.expires_at - 60000 →
        (getValidAccessToken decipher cipher cfg now user none
            (RefreshResponse.ok a2 rt2 ei s2) store).1 = Except.ok a2
        ∧ (getValidAccessToken decipher cipher cfg now user none
            (RefreshResponse.ok a2 rt2 ei s2) store).2 user.id
          = some { provider := str "x", x_user_id := user.x_user_id
                   granted_scopes := s2.getD row.granted_scopes
                   access_token := cipher a2
                   refresh_token := cipher (rt2.getD r)
                   expires_at := now + ei * 1000
                   created_at := row.created_at
                   updated_at := now })
    ∧ (∀ a2 rt2 ei s2, row.expires_at = now + 30000 →
        (getValidAccessToken decipher cipher cfg now user none
            (RefreshResponse.ok a2 rt2 ei s2) store).1 = Except.ok a2) := by
  have hmain : ∀ a2 rt2 ei s2, now ≥ row.expires_at - 60000 →
      (getValidAccessToken decipher cipher cfg now user none
          (RefreshResponse.ok a2 rt2 ei s2) store).1 = Except.ok a2
      ∧ (getValidAccessToken decipher cipher cfg now user none
          (RefreshResponse.ok a2 rt2 ei s2) store).2 user.id
        = some { provider := str "x", x_user_id := user.x_user_id
                 granted_scopes := s2.getD row.granted_scopes
                 access_token := cipher a2
                 refresh_token := cipher (rt2.getD r)
                 expires_at := now + ei * 1000
                 created_at := row.created_at
                 updated_at := now } := by
    intro a2 rt2 ei s2 hwin
    unfold getValidAccessToken
    rw [hrow]
    simp only
    rw [ha, hr]
    simp only
    rw [if_pos hwin]
    exact ⟨rfl, by simp [refreshTokens, saveUserTokens, createdAtFallback, hrow]⟩
  refine ⟨?_, hmain, ?_⟩
  · intro resp hfar
    unfold getValidAccessToken
    rw [hrow]
    simp only
    rw [ha, hr]
    simp only
    have hcond : ¬ (now ≥ row.expires_at - 60000) := by omega
    rw [if_neg hcond]
  · intro a2 rt2 ei s2 hexp
    exact (hmain a2 rt2 ei s2 (by omega)).1

/-- C5 witness: a row with far-away expiry is returned without refreshing,
by the refresh-window theorem. -/
theorem getValidAccessToken_refresh_window_witness :
    getValidAccessToken Option.some id cfg0 0 user0 none
        RefreshResponse.httpError storeFresh
      = (Except.ok (str "A"), storeFresh) :=
  (getValidAccessToken_refresh_window Option.some id cfg0 0 user0 rowFresh
    storeFresh (str "A") (str "R") rfl rfl rfl).1
    RefreshResponse.httpError (by decide)

/-- C6: refreshTokens on a non-success response deletes the stored row of
the user and fails with auth_reauth_required; on success it returns the
new token data, falling back to the previous refresh token and scope when
the response omits them, with the new absolute expiry computed from
expires_in, and upserts a row carrying both secrets encrypted with the
cipher, preserving the original creation time. -/
theorem refreshTokens_outcomes (cipher : JStr → JStr) (cfg : XConfig)
    (user : User) (now : Int) (cur : TokenData) (store : TokStore)
    (a2 : JStr) (rt2 : Option JStr) (ei : Int) (s2 : Option JStr) :
    (refreshTokens cipher cfg now user cur RefreshResponse.httpError store).1
      = Except.error (createAuthError .auth_reauth_required
          (str "Token refresh failed. Please re-authenticate.")
          (some (getLoginUrl cfg)) none)
    ∧ (refreshTokens cipher cfg now user cur RefreshResponse.httpError store).2
        user.id = none
    ∧ (refreshTokens cipher cfg now user cur
        (RefreshResponse.ok a2 rt2 ei s2) store).1
      = Except.ok { access_token := a2
                    refresh_token := rt2.getD cur.refresh_token
                    expires_at := now + ei * 1000
                    scope := s2.getD cur.scope }
    ∧ (refreshTokens cipher cfg now user cur
        (RefreshResponse.ok a2 rt2 ei s2) store).2 user.id
      = some { provider := str "x", x_user_id := user.x_user_id
               granted_scopes := s2.getD cur.scope
               access_token := cipher a2
               refresh_token := cipher (rt2.getD cur.refresh_token)
               expires_at := now + ei * 1000
               created_at := createdAtFallback (store user.id) now
               updated_at := now } := by
  refine ⟨rfl, ?_, rfl, ?_⟩
  · simp [refreshTokens, deleteUserTokens]
  · simp [refreshTokens, saveUserTokens]

/-- C6 witness: the non-success branch of refreshTokens evaluated on the
empty store. -/
theorem refreshTokens_outcomes_witness :
    (refreshTokens id cfg0 0 user0 demoCur RefreshResponse.httpError
        (fun _ => none)).1
      = Except.error (createAuthError .auth_reauth_required
          (str "Token refresh failed. Please re-authenticate.")
          (some (getLoginUrl cfg0)) none) :=
  (refreshTokens_outcomes id cfg0 user0 0 demoCur (fun _ => none)
    [] none 0 none).1

/-- C8 (amended): with a stored row whose secrets decrypt, validateToolAccess
fails with auth_scope_insufficient carrying exactly the scopes required for
the tool that are absent from the space-delimited granted string, where the
plural spelling bookmarks.read also satisfies a required bookmark.read but
every other required scope, including bookmark.write, must match literally;
in particular bookmarks.add with granted users.read tweet.read fails listing
bookmark.write. -/
theorem validateToolAccess_scope_errors (decipher : JStr → Option JStr)
    (cipher : JStr → JStr) (cfg : XConfig) (now : Int) (user : User)
    (tool : JStr) (row : TokenRow) (store : TokStore) (a r : JStr)
    (resp : RefreshResponse)
    (hrow : store user.id = some row)
    (ha : decipher row.access_token = some a)
    (hr : decipher row.refresh_token = some r) :
    (∀ s, s ∈ checkScopes row.granted_scopes (getToolScopes tool) ↔
      s ∈ getToolScopes tool ∧
        (if s = str "bookmark.read"
         then str "bookmark.read" ∉ jsSplit ' ' row.granted_scopes
              ∧ str "bookmarks.read" ∉ jsSplit ' ' row.granted_scopes
         else s ∉ jsSplit ' ' row.granted_scopes))
    ∧ (∀ missing, checkScopes row.granted_scopes (getToolScopes tool) = missing →
        missing ≠ [] →
        (validateToolAccess decipher cipher cfg now user tool resp store).1
          = Except.error (createAuthError .auth_scope_insufficient
              (str "Missing required scopes: " ++ joinSep (str ", ") missing)
              (some (getReAuthUrl cfg missing)) (some missing)))
    ∧ (row.granted_scopes = str "users.read tweet.read" →
        tool = str "bookmarks.add" →
        (validateToolAccess decipher cipher cfg now user tool resp store).1
          = Except.error (createAuthError .auth_scope_insufficient
              (str "Missing required scopes: "
                ++ joinSep (str ", ") [str "bookmark.write"])
              (some (getReAuthUrl cfg [str "bookmark.write"]))
              (some [str "bookmark.write"]))) := by
  have hB : ∀ missing,
      checkScopes row.granted_scopes (getToolScopes tool) = missing →
      missing ≠ [] →
      (validateToolAccess decipher cipher cfg now user tool resp store).1
        = Except.error (createAuthError .auth_scope_insufficient
            (str "Missing required scopes: " ++ joinSep (str ", ") missing)
            (some (getReAuthUrl cfg missing)) (some missing)) := by
    intro missing hmiss hne
    unfold validateToolAccess getValidAccessToken
    rw [hrow]
    simp only
    rw [ha, hr]
    simp only
    rw [hmiss]
    cases missing with
    | nil => exact absurd rfl hne
    | cons m ms => rw [if_neg (by simp)]
  refine ⟨?_, hB, ?_⟩
  · intro s
    by_cases hs : s = str "bookmark.read" <;>
      simp [checkScopes, List.mem_filter, hs, Bool.and_eq_true,
        Bool.not_eq_true', contains_eq_false_iff]
  · intro hg ht
    have heq : checkScopes row.granted_scopes (getToolScopes tool)
        = [str "bookmark.write"] := by
      rw [hg, ht]; decide
    exact hB [str "bookmark.write"] heq (by decide)

/-- C8 witness: the scope-insufficient failure evaluated on a store whose
grant is bookmarks.write users.read tweet.read and the tool bookmarks.add. -/
theorem validateToolAccess_scope_errors_witness :
    (validateToolAccess Option.some id cfg0 0 user0 (str "bookmarks.add")
        RefreshResponse.httpError storePlural).1
      = Except.error (createAuthError .auth_scope_insufficient
          (str "Missing required scopes: "
            ++ joinSep (str ", ") [str "bookmark.write"])
          (some (getReAuthUrl cfg0 [str "bookmark.write"]))
          (some [str "bookmark.write"])) :=
  ((validateToolAccess_scope_errors Option.some id cfg0 0 user0
      (str "bookmarks.add") rowPlural storePlural (str "A") (str "R")
      RefreshResponse.httpError rfl rfl rfl).2.1)
    [str "bookmark.write"] (by decide) (by decide)

/-- C8 counterexample: with the plural bookmarks.write scope granted, the
code still reports bookmark.write missing and fails, although under the
alias-equivalent reading of the claim no required scope would be absent, so
the aliases are not treated as equivalent for the write scope. -/
theorem checkScopes_alias_counterexample :
    checkScopes (str "bookmarks.write users.read tweet.read")
        [str "bookmark.write"] = [str "bookmark.write"]
    ∧ specAliasMissingScopes (str "bookmarks.write users.read tweet.read")
        [str "bookmark.write"] = []
    ∧ (validateToolAccess Option.some id cfg0 0 user0 (str "bookmarks.add")
        RefreshResponse.httpError storePlural).1
      = Except.error (createAuthError .auth_scope_insufficient
          (str "Missing required scopes: bookmark.write")
          (some (str "Please re-authenticate with additional scopes: bookmark.write"))
          (some [str "bookmark.write"])) := by decide

/-- C9: checkPairingStatus reports verified exactly when the stored pairing
session exists, is unexpired at the read, is completed, and its bound user
id resolves to an existing user, in which case that user is returned; any
read at or past the expiry yields the unverified response, and completion
attempted at or past the expiry leaves the stored row unchanged, so an
uncompleted session stays unverified for good once its TTL elapses. -/
theorem checkPairingStatus_verified_iff (now : Int) (store : PairStore)
    (users : UserStore) (code : JStr) :
    ((checkPairingStatus now store users code).verified = true ↔
      ∃ row uid u, store code = some row ∧ now < row.expires_at
        ∧ row.completed = true ∧ normUserId row.user_id = some uid
        ∧ users uid = some u)
    ∧ (∀ row uid u, store code = some row → now < row.expires_at →
        row.completed = true → normUserId row.user_id = some uid →
        users uid = some u →
        checkPairingStatus now store users code
          = { verified := true
              user := some { id := u.id, display_name := u.display_name
                             x_username := u.x_username } })
    ∧ (∀ row, store code = some row → row.expires_at ≤ now →
        checkPairingStatus now store users code
          = { verified := false, user := none })
    ∧ (∀ row uid2, store code = some row → row.expires_at ≤ now →
        completePairingSession now store code uid2 code = some row) := by
  have hneg : ∀ row, store code = some row → row.expires_at ≤ now →
      checkPairingStatus now store users code
        = { verified := false, user := none } := by
    intro row h hle
    unfold checkPairingStatus getPairingSession
    rw [h]
    simp only
    rw [if_neg (show ¬ now < row.expires_at by omega)]
  have hpos : ∀ row uid u, store code = some row → now < row.expires_at →
      row.completed = true → normUserId row.user_id = some uid →
      users uid = some u →
      checkPairingStatus now store users code
        = { verified := true
            user := some { id := u.id, display_name := u.display_name
                           x_username := u.x_username } } := by
    intro row uid u h1 h2 h3 h4 h5
    unfold checkPairingStatus getPairingSession
    rw [h1]
    simp only
    rw [if_pos h2]
    simp [h3, h4, h5]
  refine ⟨⟨?_, ?_⟩, hpos, hneg, ?_⟩
  · intro hv
    rcases h : store code with _ | row
    · unfold checkPairingStatus getPairingSession at hv
      rw [h] at hv
      simp at hv
    · by_cases hexp : now < row.expires_at
      · cases hb : row.completed with
        | false =>
            unfold checkPairingStatus getPairingSession at hv
            rw [h] at hv
            simp only at hv
            rw [if_pos hexp] at hv
            simp [hb] at hv
        | true =>
            rcases hu : normUserId row.user_id with _ | uid
            · unfold checkPairingStatus getPairingSession at hv
              rw [h] at hv
              simp only at hv
              rw [if_pos hexp] at hv
              simp [hb, hu] at hv
            · rcases huser : users uid with _ | u
              · unfold checkPairingStatus getPairingSession at hv
                rw [h] at hv
                simp only at hv
                rw [if_pos hexp] at hv
                simp [hb, hu, huser] at hv
              · exact ⟨row, uid, u, rfl, hexp, hb, hu, huser⟩
      · rw [hneg row h (by omega)] at hv
        simp at hv
  · rintro ⟨row, uid, u, h1, h2, h3, h4, h5⟩
    rw [hpos row uid u h1 h2 h3 h4 h5]
  · intro row uid2 h hle
    unfold completePairingSession
    rw [if_pos rfl, h]
    simp only
    rw [if_neg (show ¬ now < row.expires_at by omega)]

/-- C9 witness: the pairing session CODE1234 expiring at time 100 reads as
unverified at time 200, by the pairing-status theorem. -/
theorem checkPairingStatus_verified_iff_witness :
    checkPairingStatus 200 pairStore1 (fun _ => none) (str "CODE1234")
      = { verified := false, user := none } :=
  (checkPairingStatus_verified_iff 200 pairStore1 (fun _ => none)
    (str "CODE1234")).2.2.1 rowC1 rfl (by decide)

end XMcp
